import Mathlib

/-!
Verification of the resource-state core of the gfx-chain crate
(src/resource/mod.rs): the generic State algebra (merge, exclusive,
compatible), the Buffer and Image resource kinds, and typed resource ids.

The Access and Layout traits and the concrete BufferLayout / image-layout
merge rules live in submodules (access.rs, buffer.rs, layout.rs) that are
not part of the repository slice; those are modelled from the spec, as
marked on each definition. State, Id and the derived comparisons are
embedded directly from src/resource/mod.rs.
-/

namespace GfxChain

/-- Modelled from the spec: the Resource trait (src/resource/mod.rs lines
22-34) bundles an Access type and a Layout type; the Access trait
(src/resource/access.rs, missing from the slice) provides a bitwise union
and an is_write predicate, and the Layout trait (src/resource/layout.rs,
missing from the slice) provides a partial merge returning an Option
(spec sections 4.1 and 4.2). Usage and Range are carried by the trait but
consumed by no algorithm here, so they are omitted. -/
structure Resource where
  Access : Type
  Layout : Type
  accessUnion : Access → Access → Access
  is_write : Access → Bool
  layoutMerge : Layout → Layout → Option Layout

/-- The pipeline-stage mask (hal::pso::PipelineStage): a bitset, modelled
as a natural number whose binary digits are the stage bits. -/
def PipelineStage : Type := Nat

/-- State of src/resource/mod.rs lines 58-63: a triple of access, layout
and pipeline stages, indexed by a resource kind. -/
structure State (R : Resource) where
  access : R.Access
  layout : R.Layout
  stages : Nat

/-- State::merge, src/resource/mod.rs lines 71-77.  The source computes
`self.layout.merge(rhs.layout).unwrap()`, panicking when the layout merge
returns None; the panic is embedded as the none branch of the result. -/
def State.merge {R : Resource} (s : State R) (rhs : State R) :
    Option (State R) :=
  match R.layoutMerge s.layout rhs.layout with
  | some l =>
    some { access := R.accessUnion s.access rhs.access
           layout := l
           stages := s.stages ||| rhs.stages }
  | none => none

/-- State::exclusive, src/resource/mod.rs lines 80-82. -/
def State.exclusive {R : Resource} (s : State R) : Bool :=
  R.is_write s.access

/-- State::compatible, src/resource/mod.rs lines 86-88. -/
def State.compatible {R : Resource} (s : State R) (rhs : State R) : Bool :=
  !s.exclusive && !rhs.exclusive &&
    (R.layoutMerge s.layout rhs.layout).isSome

/-- Modelled from the spec: BufferLayout (src/resource/buffer.rs, missing
from the slice) is a unit type; its merge always returns the sole value
(spec section 4.2). -/
inductive BufferLayout
  | whole
deriving DecidableEq

/-- Modelled from the spec: the Layout impl for BufferLayout — merge
always returns its sole value. -/
def BufferLayout.merge (a b : BufferLayout) : Option BufferLayout :=
  some BufferLayout.whole

/-- The Buffer resource kind of src/resource/mod.rs lines 36-43.  Its
access type is hal::buffer::Access, external to the repository, so the
kind is parametrised by an arbitrary access type with its union and
is_write operations; its layout is the synthetic BufferLayout. -/
@[reducible]
def Buffer (A : Type) (u : A → A → A) (w : A → Bool) : Resource :=
  { Access := A
    Layout := BufferLayout
    accessUnion := u
    is_write := w
    layoutMerge := BufferLayout.merge }

/-- Modelled from the spec: the hal image-layout enumeration (spec
section 4.2); a representative set of variants including the undefined
sentinel. -/
inductive ImageLayout
  | undefined
  | general
  | shaderReadOnlyOptimal
  | transferSrcOptimal
  | transferDstOptimal
  | colorAttachmentOptimal
  | present
deriving DecidableEq, Fintype

/-- Modelled from the spec: the Layout impl for image layouts
(src/resource/layout.rs, missing from the slice) — two equal layouts
merge to themselves, the undefined sentinel merges with anything to the
other operand, all other pairs fail (spec section 4.2). -/
def ImageLayout.merge (a b : ImageLayout) : Option ImageLayout :=
  if a = b then some a
  else if a = ImageLayout.undefined then some b
  else if b = ImageLayout.undefined then some a
  else none

/-- Image access bit: a shader read (symbolic hal flag). -/
def SHADER_READ : Nat := 1

/-- Image access bit: a shader write (symbolic hal flag). -/
def SHADER_WRITE : Nat := 2

/-- Image access bit: a transfer read (symbolic hal flag). -/
def TRANSFER_READ : Nat := 4

/-- The write-category mask of the symbolic image access bits. -/
def imageWriteMask : Nat := 2

/-- is_write for the symbolic image access bitset: true iff a
write-category bit is set. -/
def imageIsWrite (a : Nat) : Bool := a &&& imageWriteMask != 0

/-- The Image resource kind of src/resource/mod.rs lines 45-52,
instantiated with the symbolic access bitset and the modelled image
layout. -/
@[reducible]
def Image : Resource :=
  { Access := Nat
    Layout := ImageLayout
    accessUnion := Nat.lor
    is_write := imageIsWrite
    layoutMerge := ImageLayout.merge }

/-- PhantomData of the Rust standard library: a zero-sized marker with a
type parameter; all its values compare equal. -/
structure PhantomData (R : Type) : Type
deriving DecidableEq

/-- Id of src/resource/mod.rs line 56: a usize index with a phantom kind
tag. -/
structure Id (R : Type) where
  index : Nat
  phantom : PhantomData R
deriving DecidableEq

/-- Comparison of PhantomData under the derived Ord: no fields, so every
comparison yields eq. -/
def PhantomData.cmp {R : Type} (a b : PhantomData R) : Ordering :=
  Ordering.eq

/-- The derived Ord of Id: lexicographic over the fields, the usize index
first and the phantom marker second. -/
def Id.cmp {R : Type} (a b : Id R) : Ordering :=
  (compare a.index b.index).then (PhantomData.cmp a.phantom b.phantom)

/-- The uninhabited Buffer kind tag, src/resource/mod.rs line 37. -/
inductive BufferKind : Type

/-- The uninhabited Image kind tag, src/resource/mod.rs line 46. -/
inductive ImageKind : Type

/-- Concrete image state: a sampled read in one stage (scenario E1 of the
spec). -/
def imgRead1 : State Image :=
  { access := SHADER_READ
    layout := ImageLayout.shaderReadOnlyOptimal
    stages := 8 }

/-- Concrete image state: a sampled read in a different stage (scenario
E1 of the spec). -/
def imgRead2 : State Image :=
  { access := SHADER_READ
    layout := ImageLayout.shaderReadOnlyOptimal
    stages := 16 }

/-- Concrete image state with the undefined layout (scenario E4 of the
spec). -/
def imgUndef : State Image :=
  { access := TRANSFER_READ
    layout := ImageLayout.undefined
    stages := 1 }

/-- A concrete is_write predicate for buffer accesses: bit 0 is the
write-category bit. -/
def bufIsWrite (a : Nat) : Bool := a &&& 1 != 0

/-- The Buffer resource kind at a concrete access bitset. -/
@[reducible]
def BufferNat : Resource := Buffer Nat Nat.lor bufIsWrite

/-- Concrete buffer state: a transfer write (scenario E5 of the spec). -/
def bufWrite : State BufferNat :=
  { access := 1
    layout := BufferLayout.whole
    stages := 1 }

/-- Concrete buffer state: a vertex-fetch read (scenario E5 of the
spec). -/
def bufRead : State BufferNat :=
  { access := 2
    layout := BufferLayout.whole
    stages := 2 }

/-- Claim C1: when the layouts of two states of the same resource kind
merge to some layout l, State.merge returns the state whose access is the
union of the two accesses, whose layout is l, and whose stages is the
bitwise union of the two stage masks. -/
theorem state_merge_fields {R : Resource} (s1 s2 : State R) (l : R.Layout)
    (h : R.layoutMerge s1.layout s2.layout = some l) :
    State.merge s1 s2 =
      some { access := R.accessUnion s1.access s2.access
             layout := l
             stages := s1.stages ||| s2.stages } := by
  unfold State.merge
  rw [h]

/-- Witness for C1: merging the two sampled reads of scenario E1. -/
theorem state_merge_fields_witness :
    State.merge imgRead1 imgRead2 =
      some { access := Image.accessUnion imgRead1.access imgRead2.access
             layout := ImageLayout.shaderReadOnlyOptimal
             stages := imgRead1.stages ||| imgRead2.stages } :=
  state_merge_fields imgRead1 imgRead2 ImageLayout.shaderReadOnlyOptimal
    (by decide)

/-- Claim C2: compatible returns true iff neither access is a write and
the layout merge is defined; it is a total boolean function. -/
theorem state_compatible_iff {R : Resource} (s1 s2 : State R) :
    State.compatible s1 s2 = true ↔
      (R.is_write s1.access = false ∧ R.is_write s2.access = false ∧
        (R.layoutMerge s1.layout s2.layout).isSome = true) := by
  unfold State.compatible State.exclusive
  simp [Bool.and_eq_true, Bool.not_eq_true']
  tauto

/-- Claim C3: State.merge hits the panicking unwrap (embedded as none)
exactly when the layout merge is undefined; whenever the layouts merge it
returns normally, regardless of the accesses. -/
theorem state_merge_none_iff {R : Resource} (s1 s2 : State R) :
    State.merge s1 s2 = none ↔
      R.layoutMerge s1.layout s2.layout = none := by
  unfold State.merge
  cases R.layoutMerge s1.layout s2.layout <;> simp

/-- Claim C4: compatibility implies that State.merge is well-defined (the
unwrap of the layout merge cannot panic). -/
theorem compatible_merge_defined {R : Resource} (s1 s2 : State R)
    (h : State.compatible s1 s2 = true) :
    (State.merge s1 s2).isSome = true := by
  unfold State.merge
  rcases hm : R.layoutMerge s1.layout s2.layout with _ | l
  · unfold State.compatible at h
    rw [hm] at h
    simp at h
  · rfl

/-- Witness for C4: the two sampled reads of scenario E1 are compatible
and their merge is defined. -/
theorem compatible_merge_defined_witness :
    (State.merge imgRead1 imgRead2).isSome = true :=
  compatible_merge_defined imgRead1 imgRead2 (by decide)

/-- Claim C5: exclusive equals is_write of the access field. -/
theorem exclusive_eq_is_write {R : Resource} (s : State R) :
    State.exclusive s = R.is_write s.access := rfl

/-- Claim C6: under the Layout contract (merge commutative, definedness
included) and the Access contract (union commutative), State.merge is
commutative: defined on one order iff defined on the other, with equal
results when defined. -/
theorem state_merge_comm {R : Resource}
    (hL : ∀ a b : R.Layout, R.layoutMerge a b = R.layoutMerge b a)
    (hA : ∀ a b : R.Access, R.accessUnion a b = R.accessUnion b a)
    (s1 s2 : State R) :
    State.merge s1 s2 = State.merge s2 s1 := by
  unfold State.merge
  rw [hL s1.layout s2.layout, hA s1.access s2.access,
    Nat.lor_comm s1.stages s2.stages]

/-- Witness for C6: merging a sampled read with an undefined-layout read
commutes, at the concrete image kind whose layout merge is commutative
and whose access union is the commutative bitwise or. -/
theorem state_merge_comm_witness :
    State.merge imgRead1 imgUndef = State.merge imgUndef imgRead1 :=
  state_merge_comm (by decide) (fun a b => Nat.lor_comm a b)
    imgRead1 imgUndef

/-- Claim C7: under the Layout contract (merge defined on one order iff
defined on the other), compatible is symmetric. -/
theorem compatible_symm {R : Resource}
    (hL : ∀ a b : R.Layout,
      (R.layoutMerge a b).isSome = (R.layoutMerge b a).isSome)
    (s1 s2 : State R) :
    State.compatible s1 s2 = State.compatible s2 s1 := by
  unfold State.compatible
  rw [hL s1.layout s2.layout]
  cases State.exclusive s1 <;> cases State.exclusive s2 <;> simp

/-- Witness for C7: compatibility of a sampled read and an
undefined-layout read is the same in both orders, at the concrete image
kind. -/
theorem compatible_symm_witness :
    State.compatible imgRead1 imgUndef =
      State.compatible imgUndef imgRead1 :=
  compatible_symm (by decide) imgRead1 imgUndef

/-- Claim C8: under the Access contract (union idempotent) and the Layout
contract (merging a layout with itself gives it back), merging a state
with itself is defined and is the identity. -/
theorem state_merge_self {R : Resource} (s : State R)
    (hA : R.accessUnion s.access s.access = s.access)
    (hL : R.layoutMerge s.layout s.layout = some s.layout) :
    State.merge s s = some s := by
  unfold State.merge
  rw [hL, hA, Nat.or_self]

/-- Witness for C8: merging the concrete sampled-read image state with
itself gives it back. -/
theorem state_merge_self_witness :
    State.merge imgRead1 imgRead1 = some imgRead1 :=
  state_merge_self imgRead1 (by decide) (by decide)

/-- Claim C9: for the Buffer kind the layout merge is total, so
State.merge never hits the panicking unwrap for buffers, and compatible
reduces to both accesses being non-writes. -/
theorem buffer_merge_total (A : Type) (u : A → A → A) (w : A → Bool)
    (b1 b2 : State (Buffer A u w)) :
    ((Buffer A u w).layoutMerge b1.layout b2.layout).isSome = true ∧
    (State.merge b1 b2).isSome = true ∧
    State.compatible b1 b2 = (!w b1.access && !w b2.access) := by
  refine ⟨rfl, rfl, ?_⟩
  simp [State.compatible, State.exclusive, BufferLayout.merge]

/-- Witness for C9: the buffer write and buffer read of scenario E5 —
layouts merge, the merge is defined, and compatibility is decided by the
write bits alone. -/
theorem buffer_merge_total_witness :
    (BufferNat.layoutMerge bufWrite.layout bufRead.layout).isSome = true ∧
    (State.merge bufWrite bufRead).isSome = true ∧
    State.compatible bufWrite bufRead =
      (!bufIsWrite bufWrite.access && !bufIsWrite bufRead.access) :=
  buffer_merge_total Nat Nat.lor bufIsWrite bufWrite bufRead

/-- Claim C10: for any kind R, the derived equality and ordering of ids
coincide with the integer equality and ordering of the wrapped indices;
the phantom tag contributes nothing. -/
theorem id_eq_and_lt (R : Type) (i j : Nat) :
    ((Id.mk i ⟨⟩ : Id R) = Id.mk j ⟨⟩ ↔ i = j) ∧
    (Id.cmp (Id.mk i ⟨⟩ : Id R) (Id.mk j ⟨⟩) = Ordering.lt ↔ i < j) := by
  constructor
  · constructor
    · intro h
      exact congrArg Id.index h
    · rintro rfl
      rfl
  · have h2 : Id.cmp (Id.mk i ⟨⟩ : Id R) (Id.mk j ⟨⟩) = compare i j := by
      unfold Id.cmp PhantomData.cmp
      cases compare i j <;> rfl
    rw [h2, Nat.compare_eq_lt]

/-- Witness for C10: ids over the Buffer kind tag at indices 3 and 5. -/
theorem id_eq_and_lt_witness :
    ((Id.mk 3 ⟨⟩ : Id BufferKind) = Id.mk 5 ⟨⟩ ↔ 3 = 5) ∧
    (Id.cmp (Id.mk 3 ⟨⟩ : Id BufferKind) (Id.mk 5 ⟨⟩) = Ordering.lt ↔
      3 < 5) :=
  id_eq_and_lt BufferKind 3 5

end GfxChain
